import Mathlib

/-!
Shallow embedding of TheRoaster's credential-issuance and quota subsystem
(src/db.js: the `db` layer and the fastify server it is bundled with).

External collaborators are modelled as explicit parameters:
* the SHA-256 digest (`crypto.createHash("sha256")`) is an opaque
  `sha : String → String` argument;
* `ethers.verifyMessage` is a `recover : String → String → Option String`
  argument, where `none` models the library throwing on malformed
  signature data and `some a` models recovery of the (checksummed)
  address `a`;
* the on-chain `roaster.entitlement(addr)` read is a `(tier, expiresAt)`
  pair handed to the claim handler;
* Redis keys are projected to the single key each operation touches.

Time is modelled as `Nat`: milliseconds since the Unix epoch for the
quota clock, seconds since the epoch for entitlement expiries, and an
abstract `now : Nat` instant for SQL `now()` comparisons.
-/

namespace Roaster

/-- Default of env `API_KEY_SALT` (server line `const SALT = ...`). -/
def SALT : String := "dev_salt_change_me"

/-- Default of env `ROASTER_DOMAIN`. -/
def DOMAIN : String := "theroaster.app"

/-- Default of env `ROASTER_CHAIN_ID`. -/
def CHAIN_ID : Nat := 8453

/-- Contract address (env `ROASTER_CONTRACT`; value from the README). -/
def CONTRACT_ADDR : String := "0x430bCCfBa14423708E26e19C69a2Ad0b87152B40"

/-- Default of env `FREE_DAILY_LIMIT`. -/
def FREE_DAILY_LIMIT : Int := 5

/-- Default of env `FREE_IP_DAILY_LIMIT`. -/
def FREE_IP_DAILY_LIMIT : Int := 20

/-- hashKey(rawKey) = sha256(rawKey + SALT) hex digest, with the digest
function `sha` passed in as the model of the crypto library. -/
def hashKey (sha : String → String) (rawKey : String) : String :=
  sha (rawKey ++ SALT)

/-- Whitespace class of the JS regex `\s` and of `trim()`, restricted
to the characters that occur in HTTP headers and request fields. -/
def isJsSpace (c : Char) : Bool :=
  c = ' ' || c = '\t' || c = '\n' || c = '\r'

/-- ASCII lowering of one character (the strings the server lowercases
are ASCII: hex addresses, tier names, the `Bearer` prefix). -/
def lowerChar (c : Char) : Char :=
  if 'A' ≤ c && c ≤ 'Z' then Char.ofNat (c.toNat + 32) else c

/-- JS `String.prototype.toLowerCase()` on the ASCII strings above. -/
def jsToLower (s : String) : String :=
  String.mk (s.data.map lowerChar)

/-- JS `String.prototype.trim()`: strip leading and trailing
whitespace. -/
def jsTrim (s : String) : String :=
  String.mk (((s.data.dropWhile isJsSpace).reverse.dropWhile
    isJsSpace).reverse)

/-- Whether the first list leads the second (anchored match of a
literal pattern). -/
def hasLead : List Char → List Char → Bool
  | [], _ => true
  | _ :: _, [] => false
  | a :: as, b :: bs => a == b && hasLead as bs

/-- A row of the `api_keys` table, with the columns the code reads or
writes. Timestamps are seconds since the epoch. -/
structure ApiKeyRow where
  key_hash : String
  wallet_address : Option String
  tier : String
  daily_limit : Option Int
  enabled : Bool
  expires_at : Option Nat
  entitlement_expires_at : Option Nat
  revoked_at : Option Nat
  agent_name : Option String
deriving Repr, DecidableEq

/-- Usability predicate of `getKeyRecordByHash`'s WHERE clause:
enabled, not revoked, `expires_at` null or strictly in the future, and
`entitlement_expires_at` null or strictly in the future. -/
def usableRow (now : Nat) (r : ApiKeyRow) : Bool :=
  r.enabled && r.revoked_at == none
    && (match r.expires_at with
        | none => true
        | some e => now < e)
    && (match r.entitlement_expires_at with
        | none => true
        | some e => now < e)

/-- db.js `getKeyRecordByHash`: first row whose `key_hash` matches and
that is usable (`limit 1`), or `null`. -/
def getKeyRecordByHash (now : Nat) (rows : List ApiKeyRow) (h : String) :
    Option ApiKeyRow :=
  rows.find? (fun r => r.key_hash == h && usableRow now r)

/-- The UPDATE inside `upsertApiKeyForWallet`: every currently-usable row
of the wallet gets `enabled = false, revoked_at = now()`; the WHERE
clause repeats the usability conditions. -/
def revokeActive (now : Nat) (walletLc : String) (rows : List ApiKeyRow) :
    List ApiKeyRow :=
  rows.map (fun r =>
    if r.wallet_address == some walletLc && usableRow now r then
      { r with enabled := false, revoked_at := some now }
    else r)

/-- Arguments of db.js `upsertApiKeyForWallet` (defaults as in the JS
destructuring). -/
structure UpsertArgs where
  key_hash : String
  wallet : String
  tier : String
  daily_limit : Option Int := none
  expires_at_unix : Option Nat := none
  entitlement_expires_at_unix : Option Nat := none
  agent_name : Option String := none
deriving Repr, DecidableEq

/-- The row INSERTed by `upsertApiKeyForWallet`. The insert lists no
`enabled` or `revoked_at` value; the schema default is an enabled,
unrevoked key (spec §4.4: "inserts the new Credential row with
enabled=true"), which `getKeyRecordByHash` relies on. -/
def newApiKeyRow (a : UpsertArgs) : ApiKeyRow :=
  { key_hash := a.key_hash
    wallet_address := some (jsToLower a.wallet)
    tier := a.tier
    daily_limit := a.daily_limit
    enabled := true
    expires_at := a.expires_at_unix
    entitlement_expires_at := a.entitlement_expires_at_unix
    revoked_at := none
    agent_name := a.agent_name }

/-- db.js `upsertApiKeyForWallet` run in isolation (one transaction, no
concurrent writer): validate arguments, revoke the wallet's active keys,
insert the fresh key. Errors model the thrown `Error`s; the transaction
rolls back on them, leaving `rows` unchanged. -/
def upsertApiKeyForWallet (now : Nat) (a : UpsertArgs)
    (rows : List ApiKeyRow) : Except String (List ApiKeyRow) :=
  let walletLc := jsToLower a.wallet
  if walletLc = "" then .error "wallet required"
  else if a.key_hash = "" then .error "key_hash required"
  else if a.tier = "" then .error "tier required"
  else
    .ok (revokeActive now walletLc rows ++ [newApiKeyRow a])

/-- Number of usable credentials a wallet holds. -/
def countUsableFor (now : Nat) (walletLc : String)
    (rows : List ApiKeyRow) : Nat :=
  (rows.filter (fun r => r.wallet_address == some walletLc
    && usableRow now r)).length

/-- Two concurrent `upsertApiKeyForWallet` transactions for the same
wallet at READ COMMITTED (the pool's default), under the schedule
T1-revoke, T2-revoke, T1-insert, T1-commit, T2-insert, T2-commit.
Each revoke UPDATE sees only rows committed when its statement starts,
so neither revokes the other transaction's insert; both inserts commit.
The transactions use plain `begin`: no identity-scoped lock or
serializable isolation orders them. -/
def doubleMintRace (now : Nat) (a1 a2 : UpsertArgs)
    (rows : List ApiKeyRow) : List ApiKeyRow :=
  revokeActive now (jsToLower a2.wallet) (revokeActive now (jsToLower a1.wallet) rows)
    ++ [newApiKeyRow a1, newApiKeyRow a2]

/-! Time helpers of the server: `secondsUntilUtcMidnight` and
`utcDayKey`. `nowMs` is `Date.now()`, milliseconds since the epoch. -/

/-- Epoch milliseconds of the next UTC midnight strictly after `nowMs`;
this is what `Date.UTC(getUTCFullYear, getUTCMonth, getUTCDate + 1)`
computes, since Unix time has exactly 86400000 ms per UTC day. -/
def nextUtcMidnightMs (nowMs : Nat) : Nat :=
  86400000 * (nowMs / 86400000 + 1)

/-- Server `secondsUntilUtcMidnight()`:
`Math.max(1, Math.floor((next - now) / 1000))`. -/
def secondsUntilUtcMidnight (nowMs : Nat) : Nat :=
  max 1 ((nextUtcMidnightMs nowMs - nowMs) / 1000)

/-- Gregorian civil date (year, month, day) of a day count since
1970-01-01 (Hinnant's `civil_from_days`, specialised to nonnegative
days, i.e. dates from the epoch on). -/
def civilFromDays (z : Nat) : Nat × Nat × Nat :=
  let z := z + 719468
  let era := z / 146097
  let doe := z % 146097
  let yoe := (doe - doe / 1460 + doe / 36524 - doe / 146096) / 365
  let y := yoe + era * 400
  let doy := doe - (365 * yoe + yoe / 4 - yoe / 100)
  let mp := (5 * doy + 2) / 153
  let d := doy - (153 * mp + 2) / 5 + 1
  let m := if mp < 10 then mp + 3 else mp - 9
  (if m ≤ 2 then y + 1 else y, m, d)

/-- Zero-pad a numeral to width `w`. -/
def padNum (w : Nat) (n : Nat) : String :=
  let s := toString n
  String.mk (List.replicate (w - s.length) '0') ++ s

/-- Server `utcDayKey()`: the `YYYY-MM-DD` prefix of
`new Date().toISOString()`, i.e. the UTC calendar date of `nowMs`. -/
def utcDayKey (nowMs : Nat) : String :=
  let c := civilFromDays (nowMs / 86400000)
  padNum 4 c.1 ++ "-" ++ padNum 2 c.2.1 ++ "-" ++ padNum 2 c.2.2

/-- Redis key used by `rateLimitDaily`. -/
def dailyKey (scope : String) (nowMs : Nat) (id : String) : String :=
  "roaster:daily:" ++ scope ++ ":" ++ utcDayKey nowMs ++ ":" ++ id

/-- One Redis counter: its integer value and, when one has been set, its
remaining TTL in seconds. -/
structure Counter where
  count : Nat
  ttl : Option Nat
deriving Repr, DecidableEq

/-- Value a counter key holds before an INCR (0 when the key is absent). -/
def preCount (store : Option Counter) : Nat :=
  match store with
  | none => 0
  | some c => c.count

/-- Redis INCR: creates an absent key at 1 (with no TTL), otherwise adds
one, returning the post-increment value. -/
def redisIncr (store : Option Counter) : Nat × Counter :=
  match store with
  | none => (1, { count := 1, ttl := none })
  | some c => (c.count + 1, { c with count := c.count + 1 })

/-- Redis EXPIRE. -/
def redisExpire (t : Nat) (c : Counter) : Counter :=
  { c with ttl := some t }

/-- Return value of `rateLimitDaily` (`remaining` is
`Math.max(0, limit - used)`). -/
structure RLResult where
  used : Nat
  remaining : Int
  day : String
deriving Repr, DecidableEq

/-- Server `rateLimitDaily({scope, id, limit})`, projected to the one
counter key it touches: INCR, then EXPIRE to the seconds left until UTC
midnight when the INCR created the key. -/
def rateLimitDaily (nowMs : Nat) (limit : Int) (store : Option Counter) :
    RLResult × Counter :=
  let ttl := secondsUntilUtcMidnight nowMs
  let (used, c1) := redisIncr store
  let c2 := if used = 1 then redisExpire ttl c1 else c1
  ({ used := used, remaining := max 0 (limit - used), day := utcDayKey nowMs },
   c2)

/-- Outcome of one quota-gated request. -/
inductive QuotaDecision where
  | allowed (used : Nat)
  | quotaExceeded (daily_limit : Int) (reset_utc_day : String)
deriving Repr, DecidableEq

/-- Whether the request went through. -/
def quotaAllowed : QuotaDecision → Bool
  | .allowed _ => true
  | .quotaExceeded _ _ => false

/-- The `daily_limit` field of a 429 response, if one was sent. -/
def quotaReported : QuotaDecision → Option Int
  | .allowed _ => none
  | .quotaExceeded l _ => some l

/-- The quota gate of the roast route (both the keyed branch and the
free branch have this shape): call `rateLimitDaily`, reject with 429
carrying `daily_limit = limit` when `used > limit`. -/
def quotaGate (nowMs : Nat) (limit : Int) (store : Option Counter) :
    QuotaDecision × Counter :=
  let (r, c) := rateLimitDaily nowMs limit store
  (if (r.used : Int) > limit then .quotaExceeded limit r.day
   else .allowed r.used, c)

/-- Run `n` successive quota-gated requests on one key within one UTC
day, collecting whether each was allowed. -/
def quotaRun (nowMs : Nat) (limit : Int) : Nat → Option Counter → List Bool
  | 0, _ => []
  | n + 1, store =>
    let (d, c) := quotaGate nowMs limit store
    quotaAllowed d :: quotaRun nowMs limit n (some c)

/-! Authorization-header handling of the roast route. -/

/-- Server test `/^Bearer\s+/i.test(authHeader)` (`hadAuth`): the header
starts, case-insensitively, with `Bearer` followed by at least one
whitespace character. -/
def hadAuth (auth : String) : Bool :=
  hasLead "bearer".data (jsToLower auth).data &&
    (match (auth.drop 6).toList with
     | c :: _ => isJsSpace c
     | [] => false)

/-- Token extraction of `getKeyRecord`:
`auth.match(/^Bearer\s+(.+)$/i)` followed by `m[1].trim()` and an
emptiness check. The capture, once trimmed, is the text after the
`Bearer` prefix with surrounding whitespace removed; a whitespace-only
remainder yields no token. -/
def bearerToken (auth : String) : Option String :=
  if hadAuth auth then
    let raw := jsTrim (auth.drop 6)
    if raw = "" then none else some raw
  else none

/-- Server `getKeyRecord(req)`: parse the Bearer token, hash it, look it
up among usable rows. (The best-effort `touchKeyUsage` write does not
affect the returned record.) -/
def getKeyRecord (now : Nat) (sha : String → String)
    (rows : List ApiKeyRow) (auth : String) : Option ApiKeyRow :=
  match bearerToken auth with
  | none => none
  | some raw => getKeyRecordByHash now rows (hashKey sha raw)

/-- How the roast route dispatches on authentication. -/
inductive RoastAuth where
  | anon
  | rejected401
  | keyed (rec : ApiKeyRow)
deriving Repr, DecidableEq

/-- Roast-route authentication dispatch (server lines around
`if (!keyRec && hadAuth) return 401`): a Bearer-shaped header that
resolves to no usable key is a hard 401; no Bearer-shaped header means
the anonymous free path; a resolved key means the keyed path. -/
def roastAuthDecision (now : Nat) (sha : String → String)
    (rows : List ApiKeyRow) (auth : String) : RoastAuth :=
  match getKeyRecord now sha rows auth, hadAuth auth with
  | none, true => .rejected401
  | none, false => .anon
  | some r, _ => .keyed r

/-- Tier-name dispatch at the end of server `tierLimit`: pro and basic
map to their configured limits, unknown tiers are treated as basic. -/
def tierDefault (basicLimit proLimit : Int) (rec : ApiKeyRow) : Int :=
  let tier := jsToLower rec.tier
  if tier = "pro" then proLimit
  else if tier = "basic" then basicLimit
  else basicLimit

/-- Server `tierLimit(rec)` with the configured BASIC/PRO limits: the
override branch runs first, the tier dispatch (`tierDefault`) otherwise. -/
def tierLimit (basicLimit proLimit : Int) (rec : ApiKeyRow) : Int :=
  match rec.daily_limit with
  | some n => if 0 < n then n else tierDefault basicLimit proLimit rec
  | none => tierDefault basicLimit proLimit rec

/-- The authenticated branch of the roast route: one `rateLimitDaily`
call on scope `key`, with the single limit `tierLimit(rec)`. -/
def roastKeyQuota (nowMs : Nat) (basicLimit proLimit : Int)
    (rec : ApiKeyRow) (store : Option Counter) : QuotaDecision × Counter :=
  quotaGate nowMs (tierLimit basicLimit proLimit rec) store

/-! The key-claim flow (`POST /api/v1/auth/claim`). -/

/-- Server `cleanRequester(v)`: trim, cut to 48 characters, keep only
`[a-zA-Z0-9_-]`. -/
def cleanRequester (v : String) : String :=
  String.mk ((((jsTrim v).take 48).toList).filter
    (fun c => c.isAlphanum || c = '_' || c = '-'))

/-- Server `makeApiKey()`: the fixed `rk_` tag followed by the
base64url rendering of 24 random bytes; `rnd` stands for that random
part. -/
def makeApiKey (rnd : String) : String :=
  "rk_" ++ rnd

/-- The challenge message both `/auth/nonce` and `/auth/claim` build. -/
def buildMessage (addr nonce issuedAt : String) : String :=
  String.intercalate "\n"
    ["TheRoaster API Key Claim",
     "Domain: " ++ DOMAIN,
     "ChainId: " ++ toString CHAIN_ID,
     "Contract: " ++ CONTRACT_ADDR,
     "Address: " ++ addr,
     "Nonce: " ++ nonce,
     "IssuedAt: " ++ issuedAt]

/-- Body of a claim request; `address` is the output of
`ethers.getAddress`, so already checksum-normalized. -/
structure ClaimReq where
  requester : String
  address : String
  signature : String
deriving Repr, DecidableEq

/-- State the claim handler touches: the wallet's stored nonce entry
(Redis key `roaster:nonce:{addr}`, holding `{nonce, issuedAt}`) and the
`api_keys` table. -/
structure ClaimState where
  nonce : Option (String × String)
  rows : List ApiKeyRow
deriving Repr, DecidableEq

/-- Outcomes of the claim route, one constructor per reply it sends. -/
inductive ClaimOutcome where
  | badRequest (error : String)
  | unauthorized (error : String)
  | paymentRequired
  | serverError (error : String)
  | success (api_key : String) (tier : Nat) (expiresAt : Nat)
deriving Repr, DecidableEq

/-- HTTP status of each claim outcome, as set by the route. -/
def claimStatus : ClaimOutcome → Nat
  | .badRequest _ => 400
  | .unauthorized _ => 401
  | .paymentRequired => 402
  | .serverError _ => 500
  | .success _ _ _ => 200

/-- The entitlement interpretation inlined in the claim route:
`active = exp > now; effTier = active ? Number(tier) : 0`. -/
def effectiveTier (tier exp now : Nat) : Nat :=
  if exp > now then tier else 0

/-- Handler of `POST /api/v1/auth/claim`, for a request whose `address`
parsed. Parameters: `sha` the digest, `recover` the signature recovery
(`none` = `ethers.verifyMessage` throws, landing in the route's catch
block, which replies 500), `ent` the on-chain `(tier, expiresAt)` read,
`now` the clock in epoch seconds, `rnd` the randomness of
`makeApiKey`. Follows the route statement by statement: requester and
signature presence checks, nonce fetch, message rebuild, signature
verification, nonce burn, entitlement gate, key mint. -/
def claimHandler (sha : String → String)
    (recover : String → String → Option String)
    (ent : Nat × Nat) (now : Nat) (rnd : String)
    (req : ClaimReq) (st : ClaimState) : ClaimOutcome × ClaimState :=
  let requester := cleanRequester req.requester
  if requester = "" then
    (.badRequest "Send requester (bot name).", st)
  else if req.signature = "" then
    (.badRequest "Missing signature.", st)
  else
    match st.nonce with
    | none => (.badRequest "Nonce expired. Request a new nonce.", st)
    | some (nonce, issuedAt) =>
      let message := buildMessage req.address nonce issuedAt
      match recover message req.signature with
      | none => (.serverError "Claim failed", st)
      | some recovered =>
        if recovered ≠ req.address then
          (.unauthorized "Signature mismatch.", st)
        else
          let st1 : ClaimState := { st with nonce := none }
          let exp := ent.2
          let effTier := effectiveTier ent.1 exp now
          if effTier = 0 then
            (.paymentRequired, st1)
          else
            let rawKey := makeApiKey rnd
            let keyHash := hashKey sha rawKey
            let tierName := if effTier = 2 then "pro" else "basic"
            match upsertApiKeyForWallet now
                { key_hash := keyHash
                  wallet := req.address
                  tier := tierName
                  entitlement_expires_at_unix := some exp
                  expires_at_unix := none
                  agent_name := some requester } st1.rows with
            | .error e => (.serverError e, st1)
            | .ok rows1 =>
              (.success rawKey effTier exp, { st1 with rows := rows1 })

/-- The string-valued content of a stored row (every other column is a
boolean or a number), for stating that the raw secret is not persisted. -/
def rowStrings (r : ApiKeyRow) : List String :=
  [r.key_hash, r.wallet_address.getD "", r.tier, r.agent_name.getD ""]

set_option maxRecDepth 8000

/-! Shared lemmas. -/

/-- Every branch of the claim handler that replies `success` has passed
the requester and signature presence checks, verified the signature,
burned the nonce, and committed the revoke-then-insert transaction;
the reply carries the freshly generated raw key and the entitlement
data. -/
theorem claimHandler_success_spec (sha : String → String)
    (recover : String → String → Option String) (ent : Nat × Nat)
    (now : Nat) (rnd : String) (req : ClaimReq) (st : ClaimState)
    (k : String) (t e : Nat)
    (hs : (claimHandler sha recover ent now rnd req st).1
            = ClaimOutcome.success k t e) :
    cleanRequester req.requester ≠ ""
  ∧ req.signature ≠ ""
  ∧ k = makeApiKey rnd
  ∧ t = effectiveTier ent.1 ent.2 now
  ∧ e = ent.2
  ∧ ((claimHandler sha recover ent now rnd req st).2).nonce = none
  ∧ ((claimHandler sha recover ent now rnd req st).2).rows
      = revokeActive now (jsToLower req.address) st.rows
        ++ [newApiKeyRow
             { key_hash := hashKey sha (makeApiKey rnd)
               wallet := req.address
               tier := if effectiveTier ent.1 ent.2 now = 2 then "pro"
                       else "basic"
               expires_at_unix := none
               entitlement_expires_at_unix := some ent.2
               agent_name := some (cleanRequester req.requester) }] := by
  by_cases h1 : cleanRequester req.requester = ""
  · simp [claimHandler, h1] at hs
  by_cases h2 : req.signature = ""
  · simp [claimHandler, h1, h2] at hs
  cases hn : st.nonce with
  | none => simp [claimHandler, h1, h2, hn] at hs
  | some p =>
    obtain ⟨nonce, issuedAt⟩ := p
    cases hr : recover (buildMessage req.address nonce issuedAt)
        req.signature with
    | none => simp [claimHandler, h1, h2, hn, hr] at hs
    | some a =>
      by_cases hm : a = req.address
      case neg => simp [claimHandler, h1, h2, hn, hr, hm] at hs
      case pos =>
        by_cases he : effectiveTier ent.1 ent.2 now = 0
        · simp [claimHandler, h1, h2, hn, hr, hm, he] at hs
        · cases hu : upsertApiKeyForWallet now
              { key_hash := hashKey sha (makeApiKey rnd)
                wallet := req.address
                tier := if effectiveTier ent.1 ent.2 now = 2 then "pro"
                        else "basic"
                expires_at_unix := none
                entitlement_expires_at_unix := some ent.2
                agent_name := some (cleanRequester req.requester) }
              st.rows with
          | error msg =>
            simp [claimHandler, h1, h2, hn, hr, hm, he, hu] at hs
          | ok rows1 =>
            have hrows : rows1
                = revokeActive now (jsToLower req.address) st.rows
                  ++ [newApiKeyRow
                       { key_hash := hashKey sha (makeApiKey rnd)
                         wallet := req.address
                         tier := if effectiveTier ent.1 ent.2 now = 2
                                 then "pro" else "basic"
                         expires_at_unix := none
                         entitlement_expires_at_unix := some ent.2
                         agent_name :=
                           some (cleanRequester req.requester) }] := by
              simp only [upsertApiKeyForWallet] at hu
              split_ifs at hu with g1 g2 g3 <;> simp_all
            simp [claimHandler, h1, h2, hn, hr, hm, he, hu] at hs ⊢
            obtain ⟨hk, ht, hee⟩ := hs
            exact ⟨hk.symm, ht.symm, hee.symm, hrows⟩

/-- Revoking a row changes only its `enabled` and `revoked_at` columns,
so the string-valued content of the table is unchanged. -/
theorem rowStrings_revokeActive (now : Nat) (w : String)
    (rows : List ApiKeyRow) (r : ApiKeyRow)
    (hr : r ∈ revokeActive now w rows) :
    ∃ r0 ∈ rows, rowStrings r = rowStrings r0 := by
  simp only [revokeActive, List.mem_map] at hr
  obtain ⟨r0, hr0, hmap⟩ := hr
  refine ⟨r0, hr0, ?_⟩
  subst hmap
  split <;> rfl

/-- A generated key, carrying the fixed `rk_` tag, is never one of the
tier names stored in the `tier` column. -/
theorem rk_tag_ne (s : String) :
    ("rk_" ++ s) ≠ "pro" ∧ ("rk_" ++ s) ≠ "basic" := by
  constructor <;> · intro h; obtain ⟨l⟩ := s; simp [String.ext_iff] at h

/-! Claim theorems. -/

/-- Claim C1. Run in sequence, two mints for one wallet leave exactly one
usable credential; but the revoke-then-insert transaction carries no
per-identity serialization, so two concurrent first claims for the same
wallet, interleaved revoke-revoke-insert-insert under READ COMMITTED,
commit two usable credentials, violating the at-most-one-usable
invariant the claim asserts for concurrent claim attempts. -/
theorem upsert_race_breaks_single_usable_invariant :
    Except.toOption (((upsertApiKeyForWallet 1000
        { key_hash := "h1", wallet := "0xAbC", tier := "pro" } []).bind
      (fun rs => upsertApiKeyForWallet 1000
        { key_hash := "h2", wallet := "0xabc", tier := "pro" } rs)).map
      (countUsableFor 1000 "0xabc")) = some 1
  ∧ countUsableFor 1000 "0xabc"
      (doubleMintRace 1000
        { key_hash := "h1", wallet := "0xAbC", tier := "pro" }
        { key_hash := "h2", wallet := "0xabc", tier := "pro" } []) = 2 := by
  constructor <;> decide

/-- Claim C2, counterexample. A claim attempt that fails signature
verification (401 Signature mismatch) leaves the stored challenge in
place, so not every claim attempt consumes the challenge. -/
theorem claim_mismatch_keeps_challenge :
    (claimHandler (fun s => "#" ++ s) (fun _ _ => some "0xB") (2, 100) 10 "x"
      { requester := "bot", address := "0xA", signature := "sig" }
      { nonce := some ("n", "t"), rows := [] }).1
      = ClaimOutcome.unauthorized "Signature mismatch."
  ∧ ((claimHandler (fun s => "#" ++ s) (fun _ _ => some "0xB") (2, 100) 10 "x"
      { requester := "bot", address := "0xA", signature := "sig" }
      { nonce := some ("n", "t"), rows := [] }).2).nonce
      = some ("n", "t") := by
  constructor <;> decide

/-- Claim C2, as amended. A claim attempt that passes signature
verification (in particular every successful claim) consumes the stored
challenge, and any second claim for the same identity — including a
replay of the previously used signature — then fails with the
nonce-expired (400) error. -/
theorem claim_success_consumes_challenge (sha : String → String)
    (recover : String → String → Option String) (ent : Nat × Nat)
    (now : Nat) (rnd : String) (req : ClaimReq) (st : ClaimState)
    (k : String) (t e : Nat)
    (hs : (claimHandler sha recover ent now rnd req st).1
            = ClaimOutcome.success k t e) :
    ((claimHandler sha recover ent now rnd req st).2).nonce = none
  ∧ ∀ (sha2 : String → String)
      (recover2 : String → String → Option String)
      (ent2 : Nat × Nat) (now2 : Nat) (rnd2 : String),
      (claimHandler sha2 recover2 ent2 now2 rnd2 req
        (claimHandler sha recover ent now rnd req st).2).1
        = ClaimOutcome.badRequest "Nonce expired. Request a new nonce." := by
  obtain ⟨h1, h2, _, _, _, hnonce, _⟩ :=
    claimHandler_success_spec sha recover ent now rnd req st k t e hs
  refine ⟨hnonce, ?_⟩
  intro sha2 recover2 ent2 now2 rnd2
  generalize (claimHandler sha recover ent now rnd req st).2 = st2
    at hnonce ⊢
  simp [claimHandler, h1, h2, hnonce]

/-- Claim C2, witness: a concrete successful claim burns the nonce and
a replay of the same request then gets the nonce-expired reply. -/
theorem claim_success_consumes_challenge_witness :
    ((claimHandler (fun s => "#" ++ s) (fun _ _ => some "0xA") (2, 100) 10 "x"
      { requester := "bot", address := "0xA", signature := "sig" }
      { nonce := some ("n", "t"), rows := [] }).2).nonce = none
  ∧ (claimHandler (fun s => "#" ++ s) (fun _ _ => some "0xA") (2, 100) 10 "y"
      { requester := "bot", address := "0xA", signature := "sig" }
      (claimHandler (fun s => "#" ++ s) (fun _ _ => some "0xA") (2, 100) 10 "x"
        { requester := "bot", address := "0xA", signature := "sig" }
        { nonce := some ("n", "t"), rows := [] }).2).1
      = ClaimOutcome.badRequest "Nonce expired. Request a new nonce." :=
  have h := claim_success_consumes_challenge (fun s => "#" ++ s)
    (fun _ _ => some "0xA") (2, 100) 10 "x"
    { requester := "bot", address := "0xA", signature := "sig" }
    { nonce := some ("n", "t"), rows := [] } "rk_x" 2 100 (by decide)
  ⟨h.1, h.2 (fun s => "#" ++ s) (fun _ _ => some "0xA") (2, 100) 10 "y"⟩

/-- Claim C3. The effective tier is 0 when the entitlement expiry is not
in the future and the stored tier code otherwise, and a claim attempt
reaching the entitlement gate with effective tier 0 is refused with the
402 No-active-entitlement reply. -/
theorem effective_tier_zero_gate (tier exp now : Nat)
    (sha : String → String) (recover : String → String → Option String)
    (rnd : String) (req : ClaimReq) (st : ClaimState)
    (nonce issuedAt : String)
    (h1 : cleanRequester req.requester ≠ "")
    (h2 : req.signature ≠ "")
    (hn : st.nonce = some (nonce, issuedAt))
    (hr : recover (buildMessage req.address nonce issuedAt) req.signature
            = some req.address) :
    (exp ≤ now → effectiveTier tier exp now = 0)
  ∧ (now < exp → effectiveTier tier exp now = tier)
  ∧ (effectiveTier tier exp now = 0 →
      (claimHandler sha recover (tier, exp) now rnd req st).1
        = ClaimOutcome.paymentRequired
      ∧ claimStatus (claimHandler sha recover (tier, exp) now rnd req st).1
        = 402) := by
  refine ⟨?_, ?_, ?_⟩
  · intro h
    simp [effectiveTier, Nat.not_lt.mpr h]
  · intro h
    simp [effectiveTier, h]
  · intro he
    simp [claimHandler, h1, h2, hn, hr, he, claimStatus]

/-- Claim C3, witness: a claim with a valid signature but an entitlement
that expired (expiry 5, clock 9) gets the 402 reply. -/
theorem effective_tier_zero_gate_witness :
    (claimHandler (fun s => "#" ++ s) (fun _ _ => some "0xA") (2, 5) 9 "x"
      { requester := "bot", address := "0xA", signature := "sig" }
      { nonce := some ("n", "t"), rows := [] }).1
      = ClaimOutcome.paymentRequired :=
  ((effective_tier_zero_gate 2 5 9 (fun s => "#" ++ s)
      (fun _ _ => some "0xA") "x"
      { requester := "bot", address := "0xA", signature := "sig" }
      { nonce := some ("n", "t"), rows := [] } "n" "t"
      (by decide) (by decide) rfl rfl).2.2 (by decide)).1

/-- Claim C4. A quota-gated request increments the counter first in all
cases (so a rejected attempt still consumes a slot), is allowed exactly
when the post-increment value is at most the limit, reports
`daily_limit = limit` on the 429 reply, and with limit 5 a run of six
requests on one key allows the first five and rejects the sixth. -/
theorem quota_post_increment_rule (nowMs : Nat) (limit : Int)
    (store : Option Counter) :
    ((quotaGate nowMs limit store).2).count = preCount store + 1
  ∧ (quotaAllowed (quotaGate nowMs limit store).1 = true
      ↔ ((preCount store : Int) + 1 ≤ limit))
  ∧ (quotaAllowed (quotaGate nowMs limit store).1 = false →
      (quotaGate nowMs limit store).1
        = QuotaDecision.quotaExceeded limit (utcDayKey nowMs))
  ∧ quotaRun 0 5 6 none = [true, true, true, true, true, false] := by
  refine ⟨?_, ?_, ?_, by decide⟩
  · cases store with
    | none =>
      simp [quotaGate, rateLimitDaily, redisIncr, redisExpire, preCount]
    | some c =>
      simp only [quotaGate, rateLimitDaily, redisIncr, redisExpire,
        preCount]
      split_ifs <;> rfl
  · cases store with
    | none =>
      simp only [quotaGate, rateLimitDaily, redisIncr, redisExpire,
        preCount, quotaAllowed]
      split_ifs with h
      · constructor
        · intro hh; simp [quotaAllowed] at hh
        · intro hh; omega
      · constructor
        · intro _; omega
        · intro _; simp [quotaAllowed]
    | some c =>
      simp only [quotaGate, rateLimitDaily, redisIncr, redisExpire,
        preCount, quotaAllowed]
      split_ifs with h
      · constructor
        · intro hh; simp [quotaAllowed] at hh
        · intro hh; omega
      · constructor
        · intro _; omega
        · intro _; simp [quotaAllowed]
  · cases store with
    | none =>
      simp only [quotaGate, rateLimitDaily, redisIncr, redisExpire,
        preCount, quotaAllowed]
      split_ifs with h
      · intro _; rfl
      · intro hh; simp [quotaAllowed] at hh
    | some c =>
      simp only [quotaGate, rateLimitDaily, redisIncr, redisExpire,
        preCount, quotaAllowed]
      split_ifs with h
      · intro _; rfl
      · intro hh; simp [quotaAllowed] at hh

/-- Claim C4, witness: instantiation at a fresh counter with limit 5,
including the six-request run. -/
theorem quota_post_increment_rule_witness :
    ((quotaGate 0 5 none).2).count = preCount none + 1
  ∧ (quotaAllowed (quotaGate 0 5 none).1 = true
      ↔ ((preCount none : Int) + 1 ≤ 5))
  ∧ (quotaAllowed (quotaGate 0 5 none).1 = false →
      (quotaGate 0 5 none).1
        = QuotaDecision.quotaExceeded 5 (utcDayKey 0))
  ∧ quotaRun 0 5 6 none = [true, true, true, true, true, false] :=
  quota_post_increment_rule 0 5 none

/-- Claim C5. A request with no Authorization header runs under the
anonymous free path, and a request whose header carries a Bearer token
that resolves to no usable credential is rejected with 401 and never
reaches the anonymous path. -/
theorem roast_auth_presence_dichotomy (now : Nat) (sha : String → String)
    (rows : List ApiKeyRow) (auth t : String) :
    (auth = "" → roastAuthDecision now sha rows auth = RoastAuth.anon)
  ∧ (bearerToken auth = some t →
      getKeyRecordByHash now rows (hashKey sha t) = none →
      roastAuthDecision now sha rows auth = RoastAuth.rejected401) := by
  constructor
  · intro h
    subst h
    rfl
  · intro hb hl
    have ha : hadAuth auth = true := by
      by_cases h : hadAuth auth
      · exact h
      · simp [bearerToken, h] at hb
    simp [roastAuthDecision, getKeyRecord, hb, hl, ha]

/-- Claim C5, witness: an absent header is served anonymously and an
unknown Bearer token is rejected. -/
theorem roast_auth_presence_dichotomy_witness :
    roastAuthDecision 0 (fun s => s) [] "" = RoastAuth.anon
  ∧ roastAuthDecision 0 (fun s => s) [] "Bearer deadbeef"
      = RoastAuth.rejected401 :=
  ⟨(roast_auth_presence_dichotomy 0 (fun s => s) [] "" "t").1 rfl,
   (roast_auth_presence_dichotomy 0 (fun s => s) [] "Bearer deadbeef"
      "deadbeef").2 (by decide) rfl⟩

/-- Claim C6, counterexample. A claim carrying malformed signature data
(signature recovery throws) lands in the route's catch block and is
answered with status 500, not 401. -/
theorem malformed_signature_yields_500 :
    claimStatus (claimHandler (fun s => "#" ++ s) (fun _ _ => none)
      (2, 100) 10 "x"
      { requester := "bot", address := "0xA", signature := "0xzz" }
      { nonce := some ("n", "t"), rows := [] }).1 = 500 := by decide

/-- Claim C6, as amended. Malformed signature data makes recovery throw
and the claim route replies with the generic 500 Claim-failed error;
only a well-formed signature recovering a different address yields the
401 Signature-mismatch reply. -/
theorem signature_failure_status_mapping (sha : String → String)
    (recover : String → String → Option String) (tier exp now : Nat)
    (rnd : String) (req : ClaimReq) (st : ClaimState)
    (nonce issuedAt : String)
    (h1 : cleanRequester req.requester ≠ "")
    (h2 : req.signature ≠ "")
    (hn : st.nonce = some (nonce, issuedAt)) :
    (recover (buildMessage req.address nonce issuedAt) req.signature
        = none →
      (claimHandler sha recover (tier, exp) now rnd req st).1
        = ClaimOutcome.serverError "Claim failed"
      ∧ claimStatus
          (claimHandler sha recover (tier, exp) now rnd req st).1 = 500)
  ∧ (∀ a, recover (buildMessage req.address nonce issuedAt) req.signature
        = some a → a ≠ req.address →
      (claimHandler sha recover (tier, exp) now rnd req st).1
        = ClaimOutcome.unauthorized "Signature mismatch."
      ∧ claimStatus
          (claimHandler sha recover (tier, exp) now rnd req st).1
        = 401) := by
  constructor
  · intro hr
    simp [claimHandler, h1, h2, hn, hr, claimStatus]
  · intro a hr hne
    simp [claimHandler, h1, h2, hn, hr, hne, claimStatus]

/-- Claim C6, witness: a malformed signature gets 500 and a mismatching
one gets 401. -/
theorem signature_failure_status_mapping_witness :
    claimStatus (claimHandler (fun s => "#" ++ s) (fun _ _ => none)
      (1, 100) 0 "x"
      { requester := "bot", address := "0xA", signature := "s" }
      { nonce := some ("n", "t"), rows := [] }).1 = 500
  ∧ claimStatus (claimHandler (fun s => "#" ++ s) (fun _ _ => some "0xB")
      (1, 100) 0 "x"
      { requester := "bot", address := "0xA", signature := "s" }
      { nonce := some ("n", "t"), rows := [] }).1 = 401 :=
  ⟨((signature_failure_status_mapping (fun s => "#" ++ s) (fun _ _ => none)
      1 100 0 "x"
      { requester := "bot", address := "0xA", signature := "s" }
      { nonce := some ("n", "t"), rows := [] } "n" "t"
      (by decide) (by decide) rfl).1 rfl).2,
   ((signature_failure_status_mapping (fun s => "#" ++ s)
      (fun _ _ => some "0xB") 1 100 0 "x"
      { requester := "bot", address := "0xA", signature := "s" }
      { nonce := some ("n", "t"), rows := [] } "n" "t"
      (by decide) (by decide) rfl).2 "0xB" rfl (by decide)).2⟩

/-- Claim C7. The expiry written on counter creation is the number of
whole seconds remaining until the next UTC midnight, clamped below by 1
and never above 86400; the increment sets it exactly when it created
the counter; and the counter key embeds the UTC calendar day, which is
constant within one UTC day. -/
theorem quota_counter_utc_reset (nowMs : Nat) (limit : Int)
    (scope id : String) (store : Option Counter) :
    1 ≤ secondsUntilUtcMidnight nowMs
  ∧ secondsUntilUtcMidnight nowMs ≤ 86400
  ∧ nowMs < nextUtcMidnightMs nowMs
  ∧ nextUtcMidnightMs nowMs % 86400000 = 0
  ∧ nextUtcMidnightMs nowMs ≤ nowMs + 86400000
  ∧ secondsUntilUtcMidnight nowMs
      = max 1 ((nextUtcMidnightMs nowMs - nowMs) / 1000)
  ∧ ((rateLimitDaily nowMs limit store).1.used = 1 →
      ((rateLimitDaily nowMs limit store).2).ttl
        = some (secondsUntilUtcMidnight nowMs))
  ∧ dailyKey scope nowMs id
      = "roaster:daily:" ++ scope ++ ":" ++ utcDayKey nowMs ++ ":" ++ id
  ∧ (∀ t1 t2 : Nat, t1 / 86400000 = t2 / 86400000 →
      utcDayKey t1 = utcDayKey t2) := by
  refine ⟨?_, ?_, ?_, ?_, ?_, rfl, ?_, rfl, ?_⟩
  · exact le_max_left 1 _
  · unfold secondsUntilUtcMidnight nextUtcMidnightMs
    omega
  · unfold nextUtcMidnightMs
    omega
  · unfold nextUtcMidnightMs
    omega
  · unfold nextUtcMidnightMs
    omega
  · cases store with
    | none =>
      intro _
      rfl
    | some c =>
      intro h
      have hc : c.count = 0 := by
        simp only [rateLimitDaily, redisIncr] at h
        omega
      simp [rateLimitDaily, redisIncr, redisExpire, hc]
  · intro t1 t2 h
    simp [utcDayKey, h]

/-- Claim C7, witness: a request creating its counter at the epoch
instant gets the full-day TTL recorded. -/
theorem quota_counter_utc_reset_witness :
    ((rateLimitDaily 0 5 none).2).ttl = some (secondsUntilUtcMidnight 0) :=
  (quota_counter_utc_reset 0 5 "key" "id" none).2.2.2.2.2.2.1 (by decide)

/-- Claim C8. A successful claim returns exactly the freshly generated
secret; the table afterwards contains a row holding the secret's salted
hash, the raw secret occurs in no stored field (given that the hash
differs from its preimage and the secret is fresh), and every
subsequent credential lookup returns a record free of the raw secret. -/
theorem mint_persists_only_hash (sha : String → String)
    (recover : String → String → Option String) (ent : Nat × Nat)
    (now : Nat) (rnd : String) (req : ClaimReq) (st : ClaimState)
    (k : String) (t e : Nat)
    (hs : (claimHandler sha recover ent now rnd req st).1
            = ClaimOutcome.success k t e)
    (hOneWay : hashKey sha k ≠ k)
    (hFresh : ∀ r ∈ st.rows, k ∉ rowStrings r)
    (hAddr : k ≠ jsToLower req.address)
    (hReq : k ≠ cleanRequester req.requester) :
    k = makeApiKey rnd
  ∧ (∃ r ∈ ((claimHandler sha recover ent now rnd req st).2).rows,
      r.key_hash = hashKey sha k)
  ∧ (∀ r ∈ ((claimHandler sha recover ent now rnd req st).2).rows,
      k ∉ rowStrings r)
  ∧ (∀ (now2 : Nat) (h2x : String) (r : ApiKeyRow),
      getKeyRecordByHash now2
        ((claimHandler sha recover ent now rnd req st).2).rows h2x
        = some r → k ∉ rowStrings r) := by
  obtain ⟨h1, h2, hk, ht, he, hnonce, hrows⟩ :=
    claimHandler_success_spec sha recover ent now rnd req st k t e hs
  have hnotnew : k ∉ rowStrings (newApiKeyRow
      { key_hash := hashKey sha (makeApiKey rnd)
        wallet := req.address
        tier := if effectiveTier ent.1 ent.2 now = 2 then "pro" else "basic"
        expires_at_unix := none
        entitlement_expires_at_unix := some ent.2
        agent_name := some (cleanRequester req.requester) }) := by
    simp only [rowStrings, newApiKeyRow, List.mem_cons, List.not_mem_nil,
      or_false, Option.getD_some]
    push_neg
    refine ⟨?_, hAddr, ?_, hReq⟩
    · rw [← hk]
      exact fun hh => hOneWay hh.symm
    · subst hk
      split
      · exact (rk_tag_ne rnd).1
      · exact (rk_tag_ne rnd).2
  have hall : ∀ r ∈ ((claimHandler sha recover ent now rnd req st).2).rows,
      k ∉ rowStrings r := by
    intro r hr
    rw [hrows] at hr
    rcases List.mem_append.mp hr with hold | hnewr
    · obtain ⟨r0, hr0, heq⟩ := rowStrings_revokeActive now _ _ r hold
      rw [heq]
      exact hFresh r0 hr0
    · rw [List.mem_singleton.mp hnewr]
      exact hnotnew
  refine ⟨hk, ?_, hall, ?_⟩
  · rw [hrows]
    refine ⟨_, List.mem_append_right _ (List.mem_singleton.mpr rfl), ?_⟩
    rw [hk]
    rfl
  · intro now2 h2x r hfind
    simp only [getKeyRecordByHash] at hfind
    exact hall r (List.mem_of_find?_eq_some hfind)

/-- Claim C8, witness: a concrete successful claim returns the generated
secret and stores a row carrying its salted hash. -/
theorem mint_persists_only_hash_witness :
    "rk_x" = makeApiKey "x"
  ∧ ∃ r ∈ ((claimHandler (fun s => "#" ++ s) (fun _ _ => some "0xA")
        (2, 100) 10 "x"
        { requester := "bot", address := "0xA", signature := "sig" }
        { nonce := some ("n", "t"), rows := [] }).2).rows,
      r.key_hash = hashKey (fun s => "#" ++ s) "rk_x" :=
  have h := mint_persists_only_hash (fun s => "#" ++ s)
    (fun _ _ => some "0xA") (2, 100) 10 "x"
    { requester := "bot", address := "0xA", signature := "sig" }
    { nonce := some ("n", "t"), rows := [] } "rk_x" 2 100
    (by decide) (by decide) (by simp) (by decide) (by decide)
  ⟨h.1, h.2.1⟩

/-- Claim C9, counterexample. A record whose `daily_limit` override is
present but 0 is billed at the tier default (250 for pro), not at the
override, so the override is not honored whenever it is present. -/
theorem tier_limit_zero_override_ignored :
    tierLimit 50 250
      { key_hash := "h", wallet_address := some "0xa", tier := "pro",
        daily_limit := some 0, enabled := true, expires_at := none,
        entitlement_expires_at := none, revoked_at := none,
        agent_name := none } = 250 := by decide

/-- Claim C9, as amended. The authenticated quota check uses the single
limit `tierLimit(rec)`: the per-record override when it is present and
strictly positive, otherwise the tier default — the pro limit for tier
"pro", the basic limit for "basic" and for any unknown tier. -/
theorem tier_limit_override_rule (basicL proL : Int) (rec : ApiKeyRow)
    (nowMs : Nat) (store : Option Counter) :
    (∀ n, rec.daily_limit = some n → 0 < n →
      tierLimit basicL proL rec = n)
  ∧ (rec.daily_limit = none →
      tierLimit basicL proL rec = tierDefault basicL proL rec)
  ∧ (∀ n, rec.daily_limit = some n → n ≤ 0 →
      tierLimit basicL proL rec = tierDefault basicL proL rec)
  ∧ (jsToLower rec.tier = "pro" → tierDefault basicL proL rec = proL)
  ∧ (jsToLower rec.tier ≠ "pro" → tierDefault basicL proL rec = basicL)
  ∧ roastKeyQuota nowMs basicL proL rec store
      = quotaGate nowMs (tierLimit basicL proL rec) store := by
  refine ⟨?_, ?_, ?_, ?_, ?_, rfl⟩
  · intro n hd hp
    simp [tierLimit, hd, hp]
  · intro hd
    simp [tierLimit, hd]
  · intro n hd hp
    simp [tierLimit, hd, Int.not_lt.mpr hp]
  · intro hp
    simp [tierDefault, hp]
  · intro hp
    by_cases hb : jsToLower rec.tier = "basic" <;>
      simp [tierDefault, hp, hb]

/-- Claim C9, witness: a positive override of 7 wins over the pro
default, and an absent override falls back to it. -/
theorem tier_limit_override_rule_witness :
    tierLimit 50 250
      { key_hash := "h1", wallet_address := some "0xa", tier := "pro",
        daily_limit := some 7, enabled := true, expires_at := none,
        entitlement_expires_at := none, revoked_at := none,
        agent_name := none } = 7
  ∧ tierLimit 50 250
      { key_hash := "h2", wallet_address := some "0xa", tier := "pro",
        daily_limit := none, enabled := true, expires_at := none,
        entitlement_expires_at := none, revoked_at := none,
        agent_name := none } = 250 :=
  ⟨(tier_limit_override_rule 50 250
      { key_hash := "h1", wallet_address := some "0xa", tier := "pro",
        daily_limit := some 7, enabled := true, expires_at := none,
        entitlement_expires_at := none, revoked_at := none,
        agent_name := none } 0 none).1 7 rfl (by decide),
   ((tier_limit_override_rule 50 250
      { key_hash := "h2", wallet_address := some "0xa", tier := "pro",
        daily_limit := none, enabled := true, expires_at := none,
        entitlement_expires_at := none, revoked_at := none,
        agent_name := none } 0 none).2.1 rfl).trans
    ((tier_limit_override_rule 50 250
      { key_hash := "h2", wallet_address := some "0xa", tier := "pro",
        daily_limit := none, enabled := true, expires_at := none,
        entitlement_expires_at := none, revoked_at := none,
        agent_name := none } 0 none).2.2.2.1 (by decide))⟩

/-- Claim C10, counterexample. The header "Bearer " (the Bearer scheme
with a whitespace-only token) does not match the Bearer-with-non-empty-
token form, yet the roast route rejects it with 401 instead of serving
it anonymously. -/
theorem bearer_empty_token_rejected :
    hadAuth "Bearer " = true
  ∧ bearerToken "Bearer " = none
  ∧ roastAuthDecision 0 (fun s => s) [] "Bearer "
      = RoastAuth.rejected401 := by
  refine ⟨by decide, by decide, by decide⟩

/-- Claim C10, as amended. A header that does not start with the Bearer
scheme (another scheme, or no header) is treated as presenting no
secret and served anonymously; a header that starts with the Bearer
scheme but yields no token — like one that carries an unresolvable
token — is rejected with 401. -/
theorem non_bearer_header_is_anonymous (now : Nat)
    (sha : String → String) (rows : List ApiKeyRow) (auth : String) :
    (hadAuth auth = false →
      roastAuthDecision now sha rows auth = RoastAuth.anon)
  ∧ (hadAuth auth = true → bearerToken auth = none →
      roastAuthDecision now sha rows auth = RoastAuth.rejected401) := by
  constructor
  · intro h
    have hb : bearerToken auth = none := by simp [bearerToken, h]
    simp [roastAuthDecision, getKeyRecord, hb, h]
  · intro h hb
    simp [roastAuthDecision, getKeyRecord, hb, h]

/-- Claim C10, witness: a Basic-scheme header is served anonymously. -/
theorem non_bearer_header_is_anonymous_witness :
    roastAuthDecision 0 (fun s => s) [] "Basic abc" = RoastAuth.anon :=
  (non_bearer_header_is_anonymous 0 (fun s => s) [] "Basic abc").1
    (by decide)

end Roaster
